import Mathlib

/-!
# Verification of the resume-analyzer scoring engine

A shallow embedding of the scoring core of the `nlp_resume_analyzer`
repository (`src/nlp_engine/parser.py`, `src/nlp_engine/analyzer.py`,
`src/nlp_engine/config_loader.py`, and the job-description normalization of
`src/web_app/app.py`), together with theorems settling the specification's
claims about it.

Modelling conventions:
* Python floats are modelled as exact rationals (`ℚ`); the decimal weight
  constants of the source (`0.4`, `0.25`, ...) are the corresponding exact
  fractions.
* The external collaborators (the SentenceTransformer cosine similarity and
  the spaCy document: its sentences and tokens) and the in-source `re`
  counting helpers whose exact value never matters to a claim (technical
  term counts, quantifiable/leadership/outcome pattern counts, section and
  bullet counts, email/phone presence) are passed in as the values the
  corresponding calls return, grouped in the `ResumeSignals` / `JdSignals`
  records.  Every formula that combines them is translated from the source.
* A taxonomy-loading failure (`config_loader` raising) is modelled by the
  configuration argument being `none`; the `try/except` fallback branches of
  the source are the `none` branches here.
* Character classes follow the ASCII semantics of the regexes in the source
  (`[A-Za-z-]`, `\w` = `[A-Za-z0-9_]`).
-/

namespace NlpResumeAnalyzer

/-! ## String helpers (Python `str` operations used by the source) -/

/-- Python `\w` word character, ASCII: letters, digits, underscore. -/
def isWordChar (c : Char) : Bool :=
  c.isAlpha || c.isDigit || c = '_'

/-- Character class `[A-Za-z-]` of the job-description token regex. -/
def isTokChar (c : Char) : Bool :=
  c.isAlpha || c = '-'

/-- Python `str.lower()` (ASCII model, via `Char.toLower`). -/
def pyLower (s : String) : String :=
  ⟨s.data.map Char.toLower⟩

/-- Split a character list at every separator character (Python
`str.split(sep)` for a one-character separator: empty segments kept). -/
def splitListBy (p : Char → Bool) (cs : List Char) : List (List Char) :=
  cs.foldr
    (fun c acc =>
      if p c then [] :: acc
      else
        match acc with
        | [] => [[c]]
        | t :: ts => (c :: t) :: ts)
    [[]]

/-- Python `str.split()` with no argument: split on whitespace runs,
discarding empty segments. -/
def pySplitWs (s : String) : List String :=
  ((splitListBy Char.isWhitespace s.data).map (fun l => (⟨l⟩ : String))).filter
    (fun w => w ≠ "")

/-- Python `str.strip()`: drop leading and trailing whitespace. -/
def pyStrip (s : String) : String :=
  ⟨((s.data.dropWhile Char.isWhitespace).reverse.dropWhile Char.isWhitespace).reverse⟩

/-- Python `s.split('\n')` (segments between newlines, empties kept). -/
def pySplitLines (s : String) : List String :=
  (splitListBy (fun c => c = '\n') s.data).map (fun l => (⟨l⟩ : String))

/-- The non-empty stripped lines of a text:
`[line.strip() for line in text.split('\n') if line.strip()]`. -/
def pyLines (s : String) : List String :=
  ((pySplitLines s).map pyStrip).filter (fun l => l ≠ "")

/-- Python substring test `pat in hay`. -/
def containsSub (hay pat : List Char) : Bool :=
  match hay with
  | [] => pat.isEmpty
  | _ :: t => pat.isPrefixOf hay || containsSub t pat

/-- Python `str.replace(pat, repl)` for a non-empty `pat`: replace every
non-overlapping occurrence, scanning left to right.  Fuelled structural
recursion; `fuel = length of the string` suffices. -/
def pyReplaceAux (pat repl : List Char) : Nat → List Char → List Char
  | 0, s => s
  | _ + 1, [] => []
  | fuel + 1, c :: cs =>
    if pat.isPrefixOf (c :: cs) && !pat.isEmpty then
      repl ++ pyReplaceAux pat repl fuel ((c :: cs).drop pat.length)
    else
      c :: pyReplaceAux pat repl fuel cs

/-- Python `s.replace(pat, repl)` (the source only uses the non-empty
pattern `"_verbs"`). -/
def pyReplace (s pat repl : String) : String :=
  ⟨pyReplaceAux pat.data repl.data s.data.length s.data⟩

/-! ## The job-description token regex

`re.findall(r'\b[A-Za-z-]+\b', job_description.lower())` in
`analyze_keywords`: scan left to right; at a position preceded/followed by a
word-boundary, greedily take the run of `[A-Za-z-]` characters, then
backtrack to the longest non-empty prefix of that run whose end is again a
word boundary; emit it and continue after it, otherwise advance one
character. -/

/-- Wordness of an optional character (`none` = outside the string,
counts as non-word for `\b`). -/
def wordOpt : Option Char → Bool
  | none => false
  | some c => isWordChar c

/-- Is there a `\b` boundary after the first `k` characters of `run`
(`rest` being the characters after the whole run)? Requires `1 ≤ k`. -/
def endBoundary (run rest : List Char) (k : Nat) : Bool :=
  wordOpt (run.get? (k - 1)) != wordOpt (if k < run.length then run.get? k else rest.head?)

/-- Largest `k` with `1 ≤ k ≤ bound` such that `endBoundary run rest k`. -/
def findMatchLen (run rest : List Char) : Nat → Option Nat
  | 0 => none
  | k + 1 => if endBoundary run rest (k + 1) then some (k + 1) else findMatchLen run rest k

/-- One scanning step of `re.findall(r'\b[A-Za-z-]+\b', ·)`:
`prevWord` is the wordness of the character before the current position. -/
def scanTokensAux (fuel : Nat) (prevWord : Bool) (cs : List Char) : List (List Char) :=
  match fuel, cs with
  | 0, _ => []
  | _ + 1, [] => []
  | fuel + 1, c :: cs' =>
    let run := (c :: cs').takeWhile isTokChar
    let rest := (c :: cs').drop run.length
    match
      if (prevWord != isWordChar c) && !run.isEmpty then findMatchLen run rest run.length
      else none
    with
    | some k =>
      run.take k ::
        scanTokensAux fuel (wordOpt (run.get? (k - 1))) ((c :: cs').drop k)
    | none => scanTokensAux fuel (isWordChar c) cs'

/-- All matches of `\b[A-Za-z-]+\b` in `s`. -/
def pyFindTokens (s : String) : List String :=
  (scanTokensAux s.data.length false s.data).map (fun l => (⟨l⟩ : String))

/-! ## parser.py -/

/-- `result['tier_counts']` of `extract_action_verbs`. -/
structure TierCounts where
  impact : Nat
  build : Nat
  support : Nat
  deriving DecidableEq

/-- The dictionary returned by `parser.extract_action_verbs`. -/
structure ActionVerbAnalysis where
  impact_verbs : List String
  build_verbs : List String
  support_verbs : List String
  tier_counts : TierCounts
  weighted_score : ℚ
  total_verbs : Nat
  deriving DecidableEq

/-- The all-zero structure of the `except` fallback of
`extract_action_verbs` (also its initial `result`). -/
def emptyActionVerbAnalysis : ActionVerbAnalysis :=
  { impact_verbs := []
    build_verbs := []
    support_verbs := []
    tier_counts := ⟨0, 0, 0⟩
    weighted_score := 0
    total_verbs := 0 }

/-- `result['tier_counts'][tier_name] += n` (no-op for an unknown key —
the source only reaches this with one of the three known keys). -/
def bumpTier (tc : TierCounts) (tier_name : String) (n : Nat) : TierCounts :=
  if tier_name = "impact" then { tc with impact := tc.impact + n }
  else if tier_name = "build" then { tc with build := tc.build + n }
  else if tier_name = "support" then { tc with support := tc.support + n }
  else tc

/-- The scan of one line for one tier: clean (`re.sub(r'[^\w]', '', ·)`)
the first three whitespace tokens of the lowercased line and return the
first cleaned token that is in `verbs` (the loop breaks at the first hit;
`None` when the line contributes nothing to this tier). -/
def line_first_match (verbs : List String) (line : String) : Option String :=
  (((pySplitWs (pyLower line)).take 3).map
    (fun w => (⟨w.data.filter isWordChar⟩ : String))).find? (fun w => verbs.contains w)

/-- `found_verbs` of one tier: the per-line first matches, in line order. -/
def tier_line_hits (verbs : List String) (lines : List String) : List String :=
  lines.filterMap (line_first_match verbs)

/-- Accumulator of the `for tier_key, verbs in verb_config.items()` loop. -/
structure VerbLoopState where
  impact_verbs : List String
  build_verbs : List String
  support_verbs : List String
  tier_counts : TierCounts

/-- One iteration of the tier loop of `extract_action_verbs`. -/
def verbLoopStep (lines : List String) (st : VerbLoopState)
    (entry : String × List String) : VerbLoopState :=
  let tier_name := pyReplace entry.1 ("_verbs") ("")
  if tier_name = "impact" ∨ tier_name = "build" ∨ tier_name = "support" then
    let found := tier_line_hits entry.2 lines
    { impact_verbs := if entry.1 = "impact_verbs" then found.dedup else st.impact_verbs
      build_verbs := if entry.1 = "build_verbs" then found.dedup else st.build_verbs
      support_verbs := if entry.1 = "support_verbs" then found.dedup else st.support_verbs
      tier_counts := bumpTier st.tier_counts tier_name found.length }
  else st

/-- `parser.extract_action_verbs`.  `verb_config` is the dictionary
returned by `config_loader.load_action_verbs()` as its (key, verb-list)
items in iteration order; `none` models the loader raising, taken to the
`except` fallback. -/
def extract_action_verbs (verb_config : Option (List (String × List String)))
    (resume_text : String) : ActionVerbAnalysis :=
  match verb_config with
  | none => emptyActionVerbAnalysis
  | some entries =>
    let lines := pyLines resume_text
    let final := entries.foldl (verbLoopStep lines) ⟨[], [], [], ⟨0, 0, 0⟩⟩
    let tc := final.tier_counts
    { impact_verbs := final.impact_verbs
      build_verbs := final.build_verbs
      support_verbs := final.support_verbs
      tier_counts := tc
      weighted_score := (tc.impact : ℚ) * 3 + (tc.build : ℚ) * 2 + (tc.support : ℚ) * 1
      total_verbs := tc.impact + tc.build + tc.support }

/-- `parser.extract_skills`.  `skills_mapping` is the
(lowercase alias ↦ canonical name) dictionary of
`config_loader.load_skills()` as its items in iteration order; `none`
models the loader raising (`except` branch returns `[]`). -/
def extract_skills (skills_mapping : Option (List (String × String)))
    (resume_text : String) : List String :=
  match skills_mapping with
  | none => []
  | some mapping =>
    let resume_text_lower := pyLower resume_text
    ((mapping.filter (fun p => containsSub resume_text_lower.data p.1.data)).map
      Prod.snd).dedup

/-! ## config_loader.py -/

/-- `ConfigLoader.get_skills_list`: the sorted list of the distinct
canonical skill names of the skills mapping
(`sorted(list(set(skills_mapping.values())))`). -/
def get_skills_list (skills_mapping : List (String × String)) : List String :=
  List.mergeSort ((skills_mapping.map Prod.snd).dedup) (fun a b => a ≤ b)

/-! ## analyzer.py -/

/-- Python truthiness test `not job_description` on an optional string:
true for `None` and for the empty string. -/
def jdFalsy : Option String → Bool
  | none => true
  | some s => s = ""

/-- `analyzer.analyze_keywords(resume_skills, job_description)`.
`skills_mapping = none` models the `try` block raising (then
`required_skills = set()`). -/
def analyze_keywords (skills_mapping : Option (List (String × String)))
    (resume_skills : List String) (job_description : String) :
    List String × List String :=
  let jd_skills := (pyFindTokens (pyLower job_description)).dedup
  let required_skills : List String :=
    match skills_mapping with
    | none => []
    | some m => (get_skills_list m).filter (fun skill => jd_skills.contains (pyLower skill))
  let resume_skills_set := resume_skills.dedup
  (required_skills.filter (fun s => resume_skills_set.contains s),
   required_skills.filter (fun s => !resume_skills_set.contains s))

/-- The per-resume outputs of the external spaCy document and of the
in-source `re` helpers that scan only the resume text, passed to the
calculators as the values the corresponding calls return. -/
structure ResumeSignals where
  /-- count of `re.findall(r'\b(?:API|SDK|CI/CD|DevOps|ML|AI|database|framework|algorithm)\b', resume_text, re.IGNORECASE)` -/
  resume_technical_terms : Nat
  /-- count of `re.findall(r'\b\d+(?:\.\d+)?(?:%|K|M|B)?\b|\$\d+(?:,\d{3})*(?:\.\d{2})?[KMB]?', resume_text)` -/
  quantifiable_count : Nat
  /-- count of the leadership-verb matches -/
  leadership_count : Nat
  /-- count of the outcome-verb matches -/
  outcome_count : Nat
  /-- count of the section-header matches -/
  sections_count : Nat
  /-- email regex search succeeded -/
  has_email : Bool
  /-- phone regex search succeeded -/
  has_phone : Bool
  /-- count of line-leading bullet markers -/
  bullet_count : Nat
  /-- `doc.sents`, each sentence as `sent.text.split()` -/
  sentences : List (List String)
  /-- the texts of the spaCy tokens of `doc` -/
  tokens : List String
  /-- count of `re.findall(r'\b(?:[A-Z]{2,}|[A-Z][a-z]+(?:[A-Z][a-z]+)+)\b', resume_text)` -/
  clarity_technical_terms : Nat

/-- The outputs of the external collaborators / `re` helpers that read the
job description: the cosine similarity of the two embeddings and the
technical-term count of the JD. -/
structure JdSignals where
  /-- `calculate_similarity(resume_text, job_description)` -/
  semantic_similarity : ℚ
  /-- count of the technical-term regex on the job description -/
  jd_technical_terms : Nat

/-- The relevance dictionary of `_calculate_relevance_score` (`score =
none` is the no-job-description branch, whose dictionary carries no
keyword lists — modelled as empty lists here). -/
structure RelevanceResult where
  score : Option ℚ
  semantic_similarity : Option ℚ
  keyword_match_rate : Option ℚ
  domain_alignment : Option ℚ
  matched_keywords : List String
  missing_keywords : List String
  deriving DecidableEq

/-- `analyzer._calculate_relevance_score`. -/
def calculate_relevance_score (resume_text : String) (job_description : Option String)
    (jsig : JdSignals) (skills_mapping : Option (List (String × String)))
    (resume_technical_terms : Nat) : RelevanceResult :=
  if jdFalsy job_description then
    { score := none
      semantic_similarity := none
      keyword_match_rate := none
      domain_alignment := none
      matched_keywords := []
      missing_keywords := [] }
  else
    let semantic_similarity := jsig.semantic_similarity
    let resume_skills := extract_skills skills_mapping resume_text
    let kw := analyze_keywords skills_mapping resume_skills (job_description.getD (""))
    let total_jd_skills := kw.1.length + kw.2.length
    let keyword_match_rate : ℚ := (kw.1.length : ℚ) / ((max total_jd_skills 1 : ℕ) : ℚ)
    let domain_alignment : ℚ :=
      if jsig.jd_technical_terms > 0 then
        min ((resume_technical_terms : ℚ) / ((max jsig.jd_technical_terms 1 : ℕ) : ℚ)) 1
      else 1/2
    let relevance_score :=
      semantic_similarity * 40 + keyword_match_rate * 40 + domain_alignment * 20
    { score := some (min (relevance_score * 100) 100)
      semantic_similarity := some semantic_similarity
      keyword_match_rate := some keyword_match_rate
      domain_alignment := some domain_alignment
      matched_keywords := kw.1
      missing_keywords := kw.2 }

/-- The impact dictionary of `_calculate_impact_score` (score, the four
`components` entries, and the details the claims use). -/
structure ImpactResult where
  score : ℚ
  quantified_achievements : ℚ
  leadership_indicators : ℚ
  action_verb_strength : ℚ
  measurable_outcomes : ℚ
  action_verb_analysis : ActionVerbAnalysis
  deriving DecidableEq

/-- `analyzer._calculate_impact_score`. -/
def calculate_impact_score (resume_text : String)
    (action_verb_analysis : ActionVerbAnalysis) (lines : List String)
    (rsig : ResumeSignals) : ImpactResult :=
  let _ := resume_text
  let quantifiable_score : ℚ := min ((rsig.quantifiable_count : ℚ) * 8) 100
  let leadership_score : ℚ := min ((rsig.leadership_count : ℚ) * 15) 100
  let action_verb_strength : ℚ :=
    min (action_verb_analysis.weighted_score / ((max lines.length 1 : ℕ) : ℚ) * 50) 100
  let outcome_score : ℚ := min ((rsig.outcome_count : ℚ) * 10) 100
  let impact_score :=
    action_verb_strength * (4/10) + quantifiable_score * (3/10) +
      leadership_score * (2/10) + outcome_score * (1/10)
  { score := min impact_score 100
    quantified_achievements := quantifiable_score / 100
    leadership_indicators := leadership_score / 100
    action_verb_strength := action_verb_strength / 100
    measurable_outcomes := outcome_score / 100
    action_verb_analysis := action_verb_analysis }

/-- The structure dictionary of `_calculate_structure_score`. -/
structure StructureResult where
  score : ℚ
  section_organization : ℚ
  contact_completeness : ℚ
  length_appropriateness : ℚ
  information_hierarchy : ℚ
  deriving DecidableEq

/-- `analyzer._calculate_structure_score` (`word_count =
len(resume_text.split())`). -/
def calculate_structure_score (resume_text : String) (rsig : ResumeSignals) :
    StructureResult :=
  let section_organization : ℚ := min ((rsig.sections_count : ℚ) * 20) 100
  let contact_completeness : ℚ :=
    ((if rsig.has_email then 1 else 0) + (if rsig.has_phone then 1 else 0) : ℚ) * 50
  let word_count := (pySplitWs resume_text).length
  let length_score : ℚ :=
    if 300 ≤ word_count ∧ word_count ≤ 800 then 100
    else if (200 ≤ word_count ∧ word_count < 300) ∨ (800 < word_count ∧ word_count ≤ 1200) then 70
    else 40
  let hierarchy_score : ℚ :=
    if rsig.bullet_count > 0 then min ((rsig.bullet_count : ℚ) * 5) 100 else 30
  let structure_score :=
    section_organization * (3/10) + contact_completeness * (2/10) +
      length_score * (25/100) + hierarchy_score * (25/100)
  { score := min structure_score 100
    section_organization := section_organization / 100
    contact_completeness := contact_completeness / 100
    length_appropriateness := length_score / 100
    information_hierarchy := hierarchy_score / 100 }

/-- The clarity dictionary of `_calculate_clarity_score`. -/
structure ClarityResult where
  score : ℚ
  conciseness : ℚ
  readability : ℚ
  technical_precision : ℚ
  deriving DecidableEq

/-- spaCy `token.is_alpha`: non-empty and all characters alphabetic. -/
def tokenIsAlpha (t : String) : Bool :=
  !t.data.isEmpty && t.data.all Char.isAlpha

/-- `analyzer._calculate_clarity_score`.  The sentences and tokens of the
external spaCy document come in through `rsig`. -/
def calculate_clarity_score (resume_text : String) (rsig : ResumeSignals) :
    ClarityResult :=
  let sentences := rsig.sentences
  let total_words := (sentences.map List.length).sum
  let avg_words_per_sentence : ℚ :=
    if sentences.length ≠ 0 then (total_words : ℚ) / (sentences.length : ℚ) else 0
  let conciseness_score : ℚ :=
    if avg_words_per_sentence ≤ 15 then 100
    else if avg_words_per_sentence ≤ 20 then 80
    else if avg_words_per_sentence ≤ 25 then 60
    else max 0 (100 - (avg_words_per_sentence - 25) * 4)
  let avg_sentence_length : ℚ :=
    (sentences.length : ℚ) /
      ((max (splitListBy (fun c => c = '.') resume_text.data).length 1 : ℕ) : ℚ)
  let complex_words := (rsig.tokens.filter (fun t => t.data.length > 6 && tokenIsAlpha t)).length
  let total_words_count := (rsig.tokens.filter tokenIsAlpha).length
  let complex_word_ratio : ℚ := (complex_words : ℚ) / ((max total_words_count 1 : ℕ) : ℚ)
  let readability_score : ℚ :=
    max 0 (100 - complex_word_ratio * 100 - max 0 (avg_sentence_length - 3/2) * 20)
  let precision_score : ℚ := min ((rsig.clarity_technical_terms : ℚ) * 3) 100
  let clarity_score :=
    conciseness_score * (5/10) + readability_score * (3/10) + precision_score * (2/10)
  { score := min clarity_score 100
    conciseness := conciseness_score / 100
    readability := readability_score / 100
    technical_precision := precision_score / 100 }

/-- The gaps dictionary of `_calculate_gaps_score`. -/
structure GapsResult where
  score : ℚ
  identified_gaps : List String
  critical_missing : List String
  improvement_suggestions : List String
  deriving DecidableEq

/-- `analyzer._calculate_gaps_score`. -/
def calculate_gaps_score (resume_text : String) (job_description : Option String)
    (skills_mapping : Option (List (String × String))) : GapsResult :=
  if jdFalsy job_description then
    { score := 100
      identified_gaps := []
      critical_missing := []
      improvement_suggestions := [] }
  else
    let jd := job_description.getD ("")
    let resume_skills := extract_skills skills_mapping resume_text
    let kw := analyze_keywords skills_mapping resume_skills jd
    let total_expected_skills := kw.1.length + kw.2.length
    let missingRatio : ℚ := (kw.2.length : ℚ) / ((max total_expected_skills 1 : ℕ) : ℚ)
    let jd_lower := pyLower jd
    let isCritical := fun (skill : String) =>
      containsSub jd_lower.data (pyLower skill).data ||
        containsSub jd_lower.data ("required".data) ||
        containsSub jd_lower.data ("must have".data)
    let critical_missing := (kw.2.take 5).filter isCritical
    let improvement_suggestions :=
      (kw.2.take 5).map (fun skill =>
        if isCritical skill then
          ("Add experience with " ++ skill ++ " - appears to be a key requirement")
        else
          ("Consider adding " ++ skill ++ " to strengthen your profile"))
    let completion_score : ℚ := max 0 (100 - missingRatio * 100)
    { score := completion_score
      identified_gaps := kw.2
      critical_missing := critical_missing
      improvement_suggestions := improvement_suggestions.take 3 }

/-- `analyzer._calculate_overall_score`, over the five metric scores in the
order relevance, impact, structure, clarity, gaps (relevance `none` when
its dictionary holds `score: None`). -/
def calculate_overall_score (relevance_score : Option ℚ)
    (impact_score structure_score clarity_score gaps_score : ℚ) : ℚ :=
  let pairs : List (ℚ × ℚ) :=
    (match relevance_score with
     | some r => [(r, (25/100 : ℚ))]
     | none => []) ++
    [(impact_score, 30/100), (structure_score, 20/100),
     (clarity_score, 15/100), (gaps_score, 10/100)]
  let total_weight := (pairs.map Prod.snd).sum
  let overall_score := (pairs.map (fun p => p.1 * (p.2 / total_weight))).sum
  min overall_score 100

/-- The structured dictionary of `_calculate_structured_metrics`
(`structure` is a Lean keyword, hence the field name `structureRes`). -/
structure StructuredScores where
  relevance : RelevanceResult
  impact : ImpactResult
  structureRes : StructureResult
  clarity : ClarityResult
  gaps : GapsResult
  overall_score : ℚ
  deriving DecidableEq

/-- `analyzer._calculate_structured_metrics`. -/
def calculate_structured_metrics (resume_text : String)
    (job_description : Option String)
    (verb_config : Option (List (String × List String)))
    (skills_mapping : Option (List (String × String)))
    (rsig : ResumeSignals) (jsig : JdSignals) : StructuredScores :=
  let lines := pyLines resume_text
  let action_verb_analysis := extract_action_verbs verb_config resume_text
  let relevance_score :=
    calculate_relevance_score resume_text job_description jsig skills_mapping
      rsig.resume_technical_terms
  let impact_score := calculate_impact_score resume_text action_verb_analysis lines rsig
  let structure_score := calculate_structure_score resume_text rsig
  let clarity_score := calculate_clarity_score resume_text rsig
  let gaps_score := calculate_gaps_score resume_text job_description skills_mapping
  { relevance := relevance_score
    impact := impact_score
    structureRes := structure_score
    clarity := clarity_score
    gaps := gaps_score
    overall_score :=
      calculate_overall_score relevance_score.score impact_score.score
        structure_score.score clarity_score.score gaps_score.score }

/-- The legacy dictionary of `get_resume_quality_score` (the `breakdown`
sub-dictionary flattened into the three `breakdown_*` fields). -/
structure LegacyResult where
  overall_score : ℚ
  action_verb_analysis : ActionVerbAnalysis
  quantifiable_score : ℚ
  conciseness_score : ℚ
  breakdown_action_verbs : ℚ
  breakdown_quantifiable : ℚ
  breakdown_conciseness : ℚ
  deriving DecidableEq

/-- `analyzer.get_resume_quality_score`.  It calls
`get_enhanced_resume_score(resume_text, job_description=None, legacy_format=False)`;
with no job description the JD-dependent collaborator outputs are never
consulted, so zeros are passed for them. -/
def get_resume_quality_score (resume_text : String)
    (verb_config : Option (List (String × List String)))
    (skills_mapping : Option (List (String × String)))
    (rsig : ResumeSignals) : LegacyResult :=
  let enhanced_scores :=
    calculate_structured_metrics resume_text none verb_config skills_mapping rsig ⟨0, 0⟩
  let action_verb_analysis := enhanced_scores.impact.action_verb_analysis
  let quantifiable_score := enhanced_scores.impact.quantified_achievements * 100
  let conciseness_score := enhanced_scores.clarity.conciseness * 100
  let lines := pyLines resume_text
  let action_verb_score : ℚ :=
    if lines.length ≠ 0 then
      min (action_verb_analysis.weighted_score / (lines.length : ℚ) * 50) 100
    else 0
  let final_score :=
    action_verb_score * (6/10) + quantifiable_score * (25/100) +
      conciseness_score * (15/100)
  { overall_score := min final_score 100
    action_verb_analysis := action_verb_analysis
    quantifiable_score := quantifiable_score
    conciseness_score := conciseness_score
    breakdown_action_verbs := action_verb_score
    breakdown_quantifiable := quantifiable_score
    breakdown_conciseness := conciseness_score }

/-- The return value of `get_enhanced_resume_score`: the legacy flat
dictionary when `legacy_format=True`, else the structured one. -/
inductive EnhancedResult where
  | legacy : LegacyResult → EnhancedResult
  | structured : StructuredScores → EnhancedResult
  deriving DecidableEq

/-- `analyzer.get_enhanced_resume_score`. -/
def get_enhanced_resume_score (resume_text : String)
    (job_description : Option String) (legacy_format : Bool)
    (verb_config : Option (List (String × List String)))
    (skills_mapping : Option (List (String × String)))
    (rsig : ResumeSignals) (jsig : JdSignals) : EnhancedResult :=
  if legacy_format then
    .legacy (get_resume_quality_score resume_text verb_config skills_mapping rsig)
  else
    .structured
      (calculate_structured_metrics resume_text job_description verb_config
        skills_mapping rsig jsig)

/-! ## web_app/app.py — job-description normalization of the `analyze` route -/

/-- `jd_for_analysis = job_description.strip() if job_description else None`
(the form field is a string, defaulting to the empty string). -/
def jd_for_analysis (job_description : String) : Option String :=
  if job_description ≠ "" then some (pyStrip job_description) else none

/-! ## Helper lemmas -/

theorem length_filterMap_eq_countP {α β : Type} (f : α → Option β) (l : List α) :
    (l.filterMap f).length = l.countP (fun a => (f a).isSome) := by
  induction l with
  | nil => rfl
  | cons a t ih =>
    rw [List.filterMap_cons, List.countP_cons]
    cases h : f a <;> simp [h, ih]

theorem bumpTier_zero (tc : TierCounts) (tier_name : String) :
    bumpTier tc tier_name 0 = tc := by
  unfold bumpTier
  split_ifs <;> rfl

theorem verbLoopStep_nil_lines (entry : String × List String) :
    verbLoopStep [] ⟨[], [], [], ⟨0, 0, 0⟩⟩ entry = ⟨[], [], [], ⟨0, 0, 0⟩⟩ := by
  unfold verbLoopStep tier_line_hits
  simp [bumpTier_zero]

theorem foldl_verbLoopStep_nil_lines (entries : List (String × List String)) :
    entries.foldl (verbLoopStep []) ⟨[], [], [], ⟨0, 0, 0⟩⟩ = ⟨[], [], [], ⟨0, 0, 0⟩⟩ := by
  induction entries with
  | nil => rfl
  | cons e t ih => rw [List.foldl_cons, verbLoopStep_nil_lines, ih]

theorem pyLines_empty : pyLines ("") = [] := rfl

/-! ## Claim theorems -/

/-- C7: for every resume text and every verb configuration (including the
configuration-failure fallback `none`), the structure returned by
`extract_action_verbs` satisfies
`weighted_score = impact*3.0 + build*2.0 + support*1.0` and
`total_verbs = impact + build + support`; and for the empty input the
result is the all-zero structure (all tier counts 0, `total_verbs = 0`,
`weighted_score = 0.0`). -/
theorem extract_action_verbs_invariants
    (verb_config : Option (List (String × List String))) (resume_text : String) :
    ((extract_action_verbs verb_config resume_text).weighted_score =
        ((extract_action_verbs verb_config resume_text).tier_counts.impact : ℚ) * 3 +
        ((extract_action_verbs verb_config resume_text).tier_counts.build : ℚ) * 2 +
        ((extract_action_verbs verb_config resume_text).tier_counts.support : ℚ) * 1) ∧
    ((extract_action_verbs verb_config resume_text).total_verbs =
        (extract_action_verbs verb_config resume_text).tier_counts.impact +
        (extract_action_verbs verb_config resume_text).tier_counts.build +
        (extract_action_verbs verb_config resume_text).tier_counts.support) ∧
    extract_action_verbs verb_config ("") = emptyActionVerbAnalysis := by
  refine ⟨?_, ?_, ?_⟩
  · cases verb_config with
    | none => simp [extract_action_verbs, emptyActionVerbAnalysis]
    | some entries => rfl
  · cases verb_config with
    | none => rfl
    | some entries => rfl
  · cases verb_config with
    | none => rfl
    | some entries =>
      show (let lines := pyLines ("")
        let final := entries.foldl (verbLoopStep lines) ⟨[], [], [], ⟨0, 0, 0⟩⟩
        let tc := final.tier_counts
        ({ impact_verbs := final.impact_verbs
           build_verbs := final.build_verbs
           support_verbs := final.support_verbs
           tier_counts := tc
           weighted_score := (tc.impact : ℚ) * 3 + (tc.build : ℚ) * 2 + (tc.support : ℚ) * 1
           total_verbs := tc.impact + tc.build + tc.support } : ActionVerbAnalysis)) =
        emptyActionVerbAnalysis
      rw [pyLines_empty]
      simp only [foldl_verbLoopStep_nil_lines]
      simp [emptyActionVerbAnalysis]

/-- C9: when the legacy format is requested, the job description argument
(and every job-description-dependent collaborator output) has no influence
on `get_enhanced_resume_score`: the legacy path recomputes the enhanced
metrics with the job description fixed to `None`. -/
theorem get_enhanced_resume_score_legacy_ignores_jd (resume_text : String)
    (jd1 jd2 : Option String)
    (verb_config : Option (List (String × List String)))
    (skills_mapping : Option (List (String × String)))
    (rsig : ResumeSignals) (j1 j2 : JdSignals) :
    get_enhanced_resume_score resume_text jd1 true verb_config skills_mapping rsig j1 =
      get_enhanced_resume_score resume_text jd2 true verb_config skills_mapping rsig j2 := rfl

/-- C8: when the taxonomy layer fails (modelled by the configuration
argument being `none`, the `except` branches of the source),
`extract_skills` returns the empty list, `extract_action_verbs` returns
the all-zero empty-signal structure, and `analyze_keywords` returns empty
matched and missing lists; each function returns a plain value instead of
propagating the exception. -/
theorem taxonomy_failure_degrades_to_empty (resume_text : String)
    (resume_skills : List String) (job_description : String) :
    extract_skills none resume_text = [] ∧
    extract_action_verbs none resume_text = emptyActionVerbAnalysis ∧
    analyze_keywords none resume_skills job_description = ([], []) :=
  ⟨rfl, rfl, rfl⟩

/-- C6: the composite overall score is `min (Σ present_score *
normalized_weight) 100` for the fixed weights relevance 0.25, impact 0.30,
structure 0.20, clarity 0.15, gaps 0.10; with relevance present the
weights already sum to 1, and with relevance absent its weight is dropped
and each remaining weight is divided by their sum 0.75. -/
theorem calculate_overall_score_weights (r i s c g : ℚ) :
    calculate_overall_score (some r) i s c g =
      min (r * (25/100) + i * (30/100) + s * (20/100) + c * (15/100) + g * (10/100)) 100 ∧
    calculate_overall_score none i s c g =
      min (i * ((30/100) / (75/100)) + s * ((20/100) / (75/100)) +
             c * ((15/100) / (75/100)) + g * ((10/100) / (75/100))) 100 := by
  constructor <;>
  · unfold calculate_overall_score
    norm_num
    congr 1
    ring

/-- The relevance score exactly as the specification (and claim C1) words
it: `(semantic_sim*0.4 + keyword_match_rate*0.4 + domain_alignment*0.2) *
100`, capped at 100 — for comparison with the score the source computes. -/
def relevance_score_spec_formula
    (semantic_sim keyword_match_rate domain_alignment : ℚ) : ℚ :=
  min ((semantic_sim * (4/10) + keyword_match_rate * (4/10) +
        domain_alignment * (2/10)) * 100) 100

/-- C1: the relevance score the source returns is NOT the specified
`(semantic_sim*0.4 + keyword_match_rate*0.4 + domain_alignment*0.2) * 100`
capped at 100: the source first computes `semantic_sim*40 +
keyword_match_rate*40 + domain_alignment*20` (already on the 0–100 scale,
as its own `(0-100)` comment says) and then multiplies by 100 again before
capping.  At cosine similarity 1/2, no matched or missing keywords
(`keyword_match_rate = 0`), one technical term on each side
(`domain_alignment = 1`), the source returns 100 while the specified
formula gives 40. -/
theorem relevance_score_double_scaling_bug :
    (calculate_relevance_score ("") (some ("x")) ⟨1/2, 1⟩ none 1).score = some 100 ∧
    relevance_score_spec_formula (1/2) 0 1 = 40 ∧
    ¬ ((100 : ℚ) = 40) := by
  refine ⟨?_, ?_, by norm_num⟩
  · norm_num +decide [calculate_relevance_score, jdFalsy, extract_skills,
      analyze_keywords, min_def, max_def]
  · norm_num [relevance_score_spec_formula, min_def]

/-- The legacy overall score exactly as claim C2 words it: the same
composite `min(action_verb_score*0.6 + quantifiable*0.25 +
conciseness*0.15, 100)`, but with the quantifiable term on the claimed
legacy `min(count * 10, 100)` scale — for comparison with what the source
computes. -/
def legacy_overall_score_claimed (resume_text : String)
    (verb_config : Option (List (String × List String)))
    (skills_mapping : Option (List (String × String)))
    (rsig : ResumeSignals) : ℚ :=
  let r := get_resume_quality_score resume_text verb_config skills_mapping rsig
  min (r.breakdown_action_verbs * (6/10) +
       min ((rsig.quantifiable_count : ℚ) * 10) 100 * (25/100) +
       r.breakdown_conciseness * (15/100)) 100

/-- C2 counterexample: for the one-line resume `"7"` (one quantifiable
regex match, no action verbs, one one-word sentence so conciseness is
100), the source's legacy overall score is `min(0*0.6 + min(1*8,100)*0.25
+ 100*0.15, 100) = 17`, while the claimed ×10 legacy scale would give
17.5: the legacy path derives its quantifiable term from the enhanced
impact component (×8), not from a separate ×10 scale. -/
theorem legacy_quantifiable_scale_counterexample :
    (get_resume_quality_score ("7") none none
        ⟨0, 1, 0, 0, 0, false, false, 0, [["7"]], [], 0⟩).overall_score = 17 ∧
    legacy_overall_score_claimed ("7") none none
        ⟨0, 1, 0, 0, 0, false, false, 0, [["7"]], [], 0⟩ = 35/2 ∧
    ¬ ((17 : ℚ) = 35/2) := by
  refine ⟨?_, ?_, by norm_num⟩
  · norm_num +decide [get_resume_quality_score, calculate_structured_metrics,
      calculate_impact_score, calculate_clarity_score, extract_action_verbs,
      pyLines, pySplitLines, splitListBy, pyStrip, emptyActionVerbAnalysis,
      min_def, max_def]
  · norm_num +decide [legacy_overall_score_claimed, get_resume_quality_score,
      calculate_structured_metrics, calculate_impact_score,
      calculate_clarity_score, extract_action_verbs, pyLines, pySplitLines,
      splitListBy, pyStrip, emptyActionVerbAnalysis, min_def, max_def]

/-- C2 (amended): the legacy result of `get_resume_quality_score` has
`overall_score = min(action_verb_score*0.6 + quantifiable_score*0.25 +
conciseness_score*0.15, 100)`, where the quantifiable term is the enhanced
impact component scaled back up, i.e. `min(count * 8, 100)` — the enhanced
×8 scale, not a separate legacy ×10 scale. -/
theorem get_resume_quality_score_formula (resume_text : String)
    (verb_config : Option (List (String × List String)))
    (skills_mapping : Option (List (String × String)))
    (rsig : ResumeSignals) :
    (get_resume_quality_score resume_text verb_config skills_mapping
        rsig).quantifiable_score = min ((rsig.quantifiable_count : ℚ) * 8) 100 ∧
    (get_resume_quality_score resume_text verb_config skills_mapping
        rsig).overall_score =
      min ((get_resume_quality_score resume_text verb_config skills_mapping
              rsig).breakdown_action_verbs * (6/10) +
           min ((rsig.quantifiable_count : ℚ) * 8) 100 * (25/100) +
           (get_resume_quality_score resume_text verb_config skills_mapping
              rsig).breakdown_conciseness * (15/100)) 100 := by
  have hq : (get_resume_quality_score resume_text verb_config skills_mapping
      rsig).quantifiable_score =
      min ((rsig.quantifiable_count : ℚ) * 8) 100 / 100 * 100 := rfl
  have hq' : (get_resume_quality_score resume_text verb_config skills_mapping
      rsig).quantifiable_score = min ((rsig.quantifiable_count : ℚ) * 8) 100 := by
    rw [hq, div_mul_cancel₀]
    norm_num
  refine ⟨hq', ?_⟩
  have hov : (get_resume_quality_score resume_text verb_config skills_mapping
      rsig).overall_score =
      min ((get_resume_quality_score resume_text verb_config skills_mapping
              rsig).breakdown_action_verbs * (6/10) +
           (get_resume_quality_score resume_text verb_config skills_mapping
              rsig).quantifiable_score * (25/100) +
           (get_resume_quality_score resume_text verb_config skills_mapping
              rsig).breakdown_conciseness * (15/100)) 100 := rfl
  rw [hov, hq']

/-- C3 counterexample: with `led` an impact verb and `developed` a build
verb, the single-line resume `"led developed x"` is credited once in the
impact tier AND once in the build tier (`total_verbs = 2` from one line):
the per-line `break` of the source is inside the per-tier scan, so a line
is not credited at most once in total across all tiers. -/
theorem single_line_credited_in_two_tiers :
    (extract_action_verbs
        (some [("impact_verbs", ["led"]), ("build_verbs", ["developed"]),
               ("support_verbs", [])]) ("led developed x")).total_verbs = 2 ∧
    (pyLines ("led developed x")).length = 1 := by
  constructor <;> decide

/-- C3 (amended): action-verb extraction credits each non-empty line at
most once PER TIER: for each tier, a line is credited exactly when one of
its first three (punctuation-stripped, lowercased) tokens is in that
tier's verb list, and only the first such token counts for the tier's
verb list output; hence each tier count is the number of matching lines
and is at most the number of lines, but a line may be credited in several
tiers. -/
theorem extract_action_verbs_per_tier_per_line (vi vb vs : List String)
    (resume_text : String) :
    ((extract_action_verbs
        (some [("impact_verbs", vi), ("build_verbs", vb), ("support_verbs", vs)])
        resume_text).tier_counts.impact =
      (pyLines resume_text).countP (fun l => (line_first_match vi l).isSome)) ∧
    ((extract_action_verbs
        (some [("impact_verbs", vi), ("build_verbs", vb), ("support_verbs", vs)])
        resume_text).tier_counts.build =
      (pyLines resume_text).countP (fun l => (line_first_match vb l).isSome)) ∧
    ((extract_action_verbs
        (some [("impact_verbs", vi), ("build_verbs", vb), ("support_verbs", vs)])
        resume_text).tier_counts.support =
      (pyLines resume_text).countP (fun l => (line_first_match vs l).isSome)) ∧
    ((extract_action_verbs
        (some [("impact_verbs", vi), ("build_verbs", vb), ("support_verbs", vs)])
        resume_text).tier_counts.impact ≤ (pyLines resume_text).length ∧
     (extract_action_verbs
        (some [("impact_verbs", vi), ("build_verbs", vb), ("support_verbs", vs)])
        resume_text).tier_counts.build ≤ (pyLines resume_text).length ∧
     (extract_action_verbs
        (some [("impact_verbs", vi), ("build_verbs", vb), ("support_verbs", vs)])
        resume_text).tier_counts.support ≤ (pyLines resume_text).length) := by
  have h : (extract_action_verbs
      (some [("impact_verbs", vi), ("build_verbs", vb), ("support_verbs", vs)])
      resume_text).tier_counts =
      ⟨0 + (tier_line_hits vi (pyLines resume_text)).length,
       0 + (tier_line_hits vb (pyLines resume_text)).length,
       0 + (tier_line_hits vs (pyLines resume_text)).length⟩ := rfl
  have hlen : ∀ v : List String,
      (tier_line_hits v (pyLines resume_text)).length =
        (pyLines resume_text).countP (fun l => (line_first_match v l).isSome) := by
    intro v
    exact length_filterMap_eq_countP (line_first_match v) (pyLines resume_text)
  rw [h]
  simp only [Nat.zero_add, hlen]
  exact ⟨trivial, trivial, trivial, List.countP_le_length _, List.countP_le_length _,
    List.countP_le_length _⟩

theorem extract_action_verbs_weighted_nonneg
    (verb_config : Option (List (String × List String))) (resume_text : String) :
    0 ≤ (extract_action_verbs verb_config resume_text).weighted_score := by
  cases verb_config with
  | none => exact le_refl 0
  | some entries =>
    show (0 : ℚ) ≤ (_ : ℚ) * 3 + (_ : ℚ) * 2 + (_ : ℚ) * 1
    positivity

theorem calculate_impact_score_bounds (resume_text : String)
    (action_verb_analysis : ActionVerbAnalysis) (lines : List String)
    (rsig : ResumeSignals) (h : 0 ≤ action_verb_analysis.weighted_score) :
    0 ≤ (calculate_impact_score resume_text action_verb_analysis lines rsig).score ∧
    (calculate_impact_score resume_text action_verb_analysis lines rsig).score ≤ 100 := by
  unfold calculate_impact_score
  refine ⟨le_min ?_ (by norm_num), min_le_right _ _⟩
  have havs : (0 : ℚ) ≤
      min (action_verb_analysis.weighted_score / ((max lines.length 1 : ℕ) : ℚ) * 50) 100 :=
    le_min (by
      apply mul_nonneg _ (by norm_num)
      exact div_nonneg h (by positivity)) (by norm_num)
  have hq : (0 : ℚ) ≤ min ((rsig.quantifiable_count : ℚ) * 8) 100 :=
    le_min (by positivity) (by norm_num)
  have hl : (0 : ℚ) ≤ min ((rsig.leadership_count : ℚ) * 15) 100 :=
    le_min (by positivity) (by norm_num)
  have ho : (0 : ℚ) ≤ min ((rsig.outcome_count : ℚ) * 10) 100 :=
    le_min (by positivity) (by norm_num)
  have : ∀ x : ℚ, 0 ≤ x → 0 ≤ x * (4/10) := fun x hx => by positivity
  refine add_nonneg (add_nonneg (add_nonneg ?_ ?_) ?_) ?_
  · exact mul_nonneg havs (by norm_num)
  · exact mul_nonneg hq (by norm_num)
  · exact mul_nonneg hl (by norm_num)
  · exact mul_nonneg ho (by norm_num)

theorem calculate_structure_score_bounds (resume_text : String)
    (rsig : ResumeSignals) :
    0 ≤ (calculate_structure_score resume_text rsig).score ∧
    (calculate_structure_score resume_text rsig).score ≤ 100 := by
  unfold calculate_structure_score
  refine ⟨le_min ?_ (by norm_num), min_le_right _ _⟩
  have hso : (0 : ℚ) ≤ min ((rsig.sections_count : ℚ) * 20) 100 :=
    le_min (by positivity) (by norm_num)
  have hcc : (0 : ℚ) ≤
      ((if rsig.has_email then 1 else 0) + (if rsig.has_phone then 1 else 0) : ℚ) * 50 := by
    split_ifs <;> norm_num
  have hls : (0 : ℚ) ≤ (if 300 ≤ (pySplitWs resume_text).length ∧
      (pySplitWs resume_text).length ≤ 800 then (100 : ℚ)
    else if (200 ≤ (pySplitWs resume_text).length ∧
        (pySplitWs resume_text).length < 300) ∨
        (800 < (pySplitWs resume_text).length ∧
        (pySplitWs resume_text).length ≤ 1200) then 70
    else 40) := by
    split_ifs <;> norm_num
  have hhs : (0 : ℚ) ≤ (if rsig.bullet_count > 0 then
      min ((rsig.bullet_count : ℚ) * 5) 100 else 30) := by
    split_ifs
    · exact le_min (by positivity) (by norm_num)
    · norm_num
  refine add_nonneg (add_nonneg (add_nonneg ?_ ?_) ?_) ?_
  · exact mul_nonneg hso (by norm_num)
  · exact mul_nonneg hcc (by norm_num)
  · exact mul_nonneg hls (by norm_num)
  · exact mul_nonneg hhs (by norm_num)

theorem calculate_clarity_score_bounds (resume_text : String)
    (rsig : ResumeSignals) :
    0 ≤ (calculate_clarity_score resume_text rsig).score ∧
    (calculate_clarity_score resume_text rsig).score ≤ 100 := by
  unfold calculate_clarity_score
  refine ⟨le_min ?_ (by norm_num), min_le_right _ _⟩
  have hcs : (0 : ℚ) ≤ (if (if rsig.sentences.length ≠ 0 then
        ((rsig.sentences.map List.length).sum : ℚ) / (rsig.sentences.length : ℚ)
      else 0) ≤ 15 then (100 : ℚ)
    else if (if rsig.sentences.length ≠ 0 then
        ((rsig.sentences.map List.length).sum : ℚ) / (rsig.sentences.length : ℚ)
      else 0) ≤ 20 then 80
    else if (if rsig.sentences.length ≠ 0 then
        ((rsig.sentences.map List.length).sum : ℚ) / (rsig.sentences.length : ℚ)
      else 0) ≤ 25 then 60
    else max 0 (100 - ((if rsig.sentences.length ≠ 0 then
        ((rsig.sentences.map List.length).sum : ℚ) / (rsig.sentences.length : ℚ)
      else 0) - 25) * 4)) := by
    split_ifs <;> norm_num
  have hrs : (0 : ℚ) ≤ max 0 (100 -
      ((((rsig.tokens.filter (fun t => t.data.length > 6 && tokenIsAlpha t)).length : ℚ) /
        ((max (rsig.tokens.filter tokenIsAlpha).length 1 : ℕ) : ℚ)) * 100) -
      max 0 ((rsig.sentences.length : ℚ) /
        ((max (splitListBy (fun c => c = '.') resume_text.data).length 1 : ℕ) : ℚ) - 3/2) * 20) :=
    le_max_left 0 _
  have hps : (0 : ℚ) ≤ min ((rsig.clarity_technical_terms : ℚ) * 3) 100 :=
    le_min (by positivity) (by norm_num)
  refine add_nonneg (add_nonneg ?_ ?_) ?_
  · exact mul_nonneg hcs (by norm_num)
  · exact mul_nonneg hrs (by norm_num)
  · exact mul_nonneg hps (by norm_num)

theorem calculate_gaps_score_bounds (resume_text : String)
    (job_description : Option String)
    (skills_mapping : Option (List (String × String))) :
    0 ≤ (calculate_gaps_score resume_text job_description skills_mapping).score ∧
    (calculate_gaps_score resume_text job_description skills_mapping).score ≤ 100 := by
  unfold calculate_gaps_score
  split
  · exact ⟨by norm_num, by norm_num⟩
  · constructor
    · exact le_max_left 0 _
    · apply max_le (by norm_num)
      have : (0 : ℚ) ≤
          ((analyze_keywords skills_mapping
              (extract_skills skills_mapping resume_text)
              (job_description.getD (""))).2.length : ℚ) /
            ((max ((analyze_keywords skills_mapping
                (extract_skills skills_mapping resume_text)
                (job_description.getD (""))).1.length +
              (analyze_keywords skills_mapping
                (extract_skills skills_mapping resume_text)
                (job_description.getD (""))).2.length) 1 : ℕ) : ℚ) * 100 := by
        positivity
      linarith

theorem calculate_relevance_score_cases (resume_text : String)
    (job_description : Option String) (jsig : JdSignals)
    (skills_mapping : Option (List (String × String)))
    (resume_technical_terms : Nat) :
    ((calculate_relevance_score resume_text job_description jsig skills_mapping
        resume_technical_terms).score = none ↔ jdFalsy job_description = true) ∧
    (∀ q, (calculate_relevance_score resume_text job_description jsig skills_mapping
        resume_technical_terms).score = some q →
      q ≤ 100 ∧ (0 ≤ jsig.semantic_similarity → 0 ≤ q)) := by
  unfold calculate_relevance_score
  by_cases hj : jdFalsy job_description = true
  · simp [hj]
  · simp only [hj, Bool.false_eq_true, if_false]
    refine ⟨by simp [hj], ?_⟩
    intro q hq
    simp only [Option.some.injEq] at hq
    subst hq
    refine ⟨min_le_right _ _, fun hss => le_min ?_ (by norm_num)⟩
    have hkmr : (0 : ℚ) ≤
        ((analyze_keywords skills_mapping
            (extract_skills skills_mapping resume_text)
            (job_description.getD (""))).1.length : ℚ) /
          ((max ((analyze_keywords skills_mapping
              (extract_skills skills_mapping resume_text)
              (job_description.getD (""))).1.length +
            (analyze_keywords skills_mapping
              (extract_skills skills_mapping resume_text)
              (job_description.getD (""))).2.length) 1 : ℕ) : ℚ) := by
      positivity
    have hda : (0 : ℚ) ≤ (if jsig.jd_technical_terms > 0 then
        min ((resume_technical_terms : ℚ) /
          ((max jsig.jd_technical_terms 1 : ℕ) : ℚ)) 1 else 1/2) := by
      split_ifs
      · exact le_min (by positivity) (by norm_num)
      · norm_num
    have h40 : (0 : ℚ) ≤ jsig.semantic_similarity * 40 := by positivity
    positivity

/-- C4 counterexample: with job description present and the (allowed)
cosine similarity −1, no matched or missing keywords and zero resume
technical terms against one JD technical term, the relevance score the
enhanced scorer returns is −4000 — far below the claimed lower bound 0
(the source caps the relevance score above at 100 but never clamps it
below). -/
theorem negative_relevance_score_counterexample :
    (calculate_structured_metrics ("") (some ("x")) none none
        ⟨0, 0, 0, 0, 0, false, false, 0, [], [], 0⟩ ⟨-1, 1⟩).relevance.score =
      some (-4000) ∧
    (-1 : ℚ) ≤ -1 ∧ (-1 : ℚ) ≤ 1 ∧ (-4000 : ℚ) < 0 := by
  refine ⟨?_, by norm_num, by norm_num, by norm_num⟩
  norm_num +decide [calculate_structured_metrics, calculate_relevance_score,
    jdFalsy, extract_skills, analyze_keywords, min_def, max_def]

/-- C4 (amended): assuming the external cosine similarity lies in [−1,1],
the impact, structure, clarity and gaps scores of the enhanced scorer all
lie in [0,100], and the relevance score is `None` exactly when the job
description is absent (Python-falsy: `None` or the empty string); a
present relevance score is capped above at 100 and is nonnegative whenever
the cosine similarity is nonnegative, but it has no lower clamp, so it can
be negative when the cosine similarity is negative. -/
theorem metric_scores_bounded (resume_text : String) (job_description : Option String)
    (verb_config : Option (List (String × List String)))
    (skills_mapping : Option (List (String × String)))
    (rsig : ResumeSignals) (jsig : JdSignals)
    (_h1 : -1 ≤ jsig.semantic_similarity) (_h2 : jsig.semantic_similarity ≤ 1) :
    (0 ≤ (calculate_structured_metrics resume_text job_description verb_config
        skills_mapping rsig jsig).impact.score ∧
      (calculate_structured_metrics resume_text job_description verb_config
        skills_mapping rsig jsig).impact.score ≤ 100) ∧
    (0 ≤ (calculate_structured_metrics resume_text job_description verb_config
        skills_mapping rsig jsig).structureRes.score ∧
      (calculate_structured_metrics resume_text job_description verb_config
        skills_mapping rsig jsig).structureRes.score ≤ 100) ∧
    (0 ≤ (calculate_structured_metrics resume_text job_description verb_config
        skills_mapping rsig jsig).clarity.score ∧
      (calculate_structured_metrics resume_text job_description verb_config
        skills_mapping rsig jsig).clarity.score ≤ 100) ∧
    (0 ≤ (calculate_structured_metrics resume_text job_description verb_config
        skills_mapping rsig jsig).gaps.score ∧
      (calculate_structured_metrics resume_text job_description verb_config
        skills_mapping rsig jsig).gaps.score ≤ 100) ∧
    ((calculate_structured_metrics resume_text job_description verb_config
        skills_mapping rsig jsig).relevance.score = none ↔
      jdFalsy job_description = true) ∧
    (∀ q, (calculate_structured_metrics resume_text job_description verb_config
        skills_mapping rsig jsig).relevance.score = some q →
      q ≤ 100 ∧ (0 ≤ jsig.semantic_similarity → 0 ≤ q)) := by
  refine ⟨?_, ?_, ?_, ?_, ?_, ?_⟩
  · exact calculate_impact_score_bounds resume_text _ _ rsig
      (extract_action_verbs_weighted_nonneg verb_config resume_text)
  · exact calculate_structure_score_bounds resume_text rsig
  · exact calculate_clarity_score_bounds resume_text rsig
  · exact calculate_gaps_score_bounds resume_text job_description skills_mapping
  · exact (calculate_relevance_score_cases resume_text job_description jsig
      skills_mapping rsig.resume_technical_terms).1
  · exact (calculate_relevance_score_cases resume_text job_description jsig
      skills_mapping rsig.resume_technical_terms).2

/-- Witness for `metric_scores_bounded`: its hypotheses hold and its
conclusion is obtained at a concrete input (cosine similarity 0, job
description `"x"`, failed taxonomy, all-zero signals). -/
theorem metric_scores_bounded_witness :
    ((-1 : ℚ) ≤ 0 ∧ (0 : ℚ) ≤ 1) ∧
    (0 ≤ (calculate_structured_metrics ("r") (some ("x")) none none
        ⟨0, 0, 0, 0, 0, false, false, 0, [], [], 0⟩ ⟨0, 1⟩).impact.score ∧
      (calculate_structured_metrics ("r") (some ("x")) none none
        ⟨0, 0, 0, 0, 0, false, false, 0, [], [], 0⟩ ⟨0, 1⟩).impact.score ≤ 100) ∧
    ((calculate_structured_metrics ("r") (some ("x")) none none
        ⟨0, 0, 0, 0, 0, false, false, 0, [], [], 0⟩ ⟨0, 1⟩).relevance.score = none ↔
      jdFalsy (some ("x")) = true) :=
  ⟨⟨by norm_num, by norm_num⟩,
    (metric_scores_bounded ("r") (some ("x")) none none
      ⟨0, 0, 0, 0, 0, false, false, 0, [], [], 0⟩ ⟨0, 1⟩ (by norm_num) (by norm_num)).1,
    (metric_scores_bounded ("r") (some ("x")) none none
      ⟨0, 0, 0, 0, 0, false, false, 0, [], [], 0⟩ ⟨0, 1⟩ (by norm_num) (by norm_num)).2.2.2.2.1⟩

theorem pyStrip_all_whitespace (s : String)
    (h : s.data.all Char.isWhitespace = true) : pyStrip s = "" := by
  unfold pyStrip
  have h1 : s.data.dropWhile Char.isWhitespace = [] := by
    rw [List.dropWhile_eq_nil_iff]
    intro x hx
    exact (List.all_eq_true.mp h) x hx
  rw [h1]
  rfl

/-- C5: for every resume text and every blank or whitespace-only job
description string, the enhanced scoring result (with the job description
normalized exactly as the `analyze` route does:
`job_description.strip() if job_description else None`) equals the result
for an absent (`None`) job description, and the derived mode flag is
quality-check (the normalized job description is Python-falsy), so
relevance and gaps take their not-applicable branches. -/
theorem blank_jd_equals_absent_jd (resume_text s : String)
    (verb_config : Option (List (String × List String)))
    (skills_mapping : Option (List (String × String)))
    (rsig : ResumeSignals) (jsig : JdSignals)
    (h : s.data.all Char.isWhitespace = true) :
    get_enhanced_resume_score resume_text (jd_for_analysis s) false verb_config
        skills_mapping rsig jsig =
      get_enhanced_resume_score resume_text none false verb_config
        skills_mapping rsig jsig ∧
    jdFalsy (jd_for_analysis s) = true := by
  by_cases hs : s = ""
  · subst hs
    exact ⟨rfl, rfl⟩
  · have hjd : jd_for_analysis s = some ("") := by
      unfold jd_for_analysis
      rw [if_pos hs, pyStrip_all_whitespace s h]
    rw [hjd]
    exact ⟨rfl, rfl⟩

/-- Witness for `blank_jd_equals_absent_jd`: its hypothesis holds and its
conclusion is obtained for the one-space job description `" "` at a
concrete input. -/
theorem blank_jd_equals_absent_jd_witness :
    (" ").data.all Char.isWhitespace = true ∧
    get_enhanced_resume_score ("r") (jd_for_analysis (" ")) false none none
        ⟨0, 0, 0, 0, 0, false, false, 0, [], [], 0⟩ ⟨0, 0⟩ =
      get_enhanced_resume_score ("r") none false none none
        ⟨0, 0, 0, 0, 0, false, false, 0, [], [], 0⟩ ⟨0, 0⟩ :=
  ⟨by decide,
    (blank_jd_equals_absent_jd ("r") (" ") none none
      ⟨0, 0, 0, 0, 0, false, false, 0, [], [], 0⟩ ⟨0, 0⟩ (by decide)).1⟩

theorem scanTokensAux_tokChars :
    ∀ (fuel : Nat) (prevWord : Bool) (cs : List Char) (t : List Char),
      t ∈ scanTokensAux fuel prevWord cs → ∀ c ∈ t, isTokChar c = true := by
  intro fuel
  induction fuel with
  | zero =>
    intro pw cs t ht
    simp [scanTokensAux] at ht
  | succ n ih =>
    intro pw cs t ht
    cases cs with
    | nil => simp [scanTokensAux] at ht
    | cons c cs' =>
      simp only [scanTokensAux] at ht
      split at ht
      · rcases List.mem_cons.mp ht with rfl | htail
        · intro ch hch
          exact List.mem_takeWhile_imp (List.take_subset _ _ hch)
        · exact ih _ _ _ htail
      · exact ih _ _ _ ht

theorem mem_pyFindTokens_tokChars (s t : String) (ht : t ∈ pyFindTokens s) :
    ∀ c ∈ t.data, isTokChar c = true := by
  unfold pyFindTokens at ht
  rcases List.mem_map.mp ht with ⟨l, hl, rfl⟩
  intro c hc
  exact scanTokensAux_tokChars _ _ _ l hl c hc

theorem mem_get_skills_list (m : List (String × String)) (y : String) :
    y ∈ get_skills_list m ↔ y ∈ m.map Prod.snd := by
  unfold get_skills_list
  rw [(List.mergeSort_perm _ _).mem_iff, List.mem_dedup]

theorem analyze_keywords_mem (m : List (String × String)) (rs : List String)
    (jd : String) (x : String) :
    (x ∈ (analyze_keywords (some m) rs jd).1 ↔
      ((x ∈ m.map Prod.snd ∧ pyLower x ∈ pyFindTokens (pyLower jd)) ∧ x ∈ rs)) ∧
    (x ∈ (analyze_keywords (some m) rs jd).2 ↔
      ((x ∈ m.map Prod.snd ∧ pyLower x ∈ pyFindTokens (pyLower jd)) ∧ x ∉ rs)) := by
  unfold analyze_keywords
  simp only [List.mem_filter, List.elem_iff, List.mem_dedup, Bool.not_eq_true',
    ← Bool.not_eq_true, mem_get_skills_list]
  tauto

/-- C10: for every skills configuration, resume-skill list and job
description, the matched and missing lists of `analyze_keywords` are
disjoint, their union is exactly the set of configured canonical skill
names whose lowercased form occurs as a `\b[A-Za-z-]+\b` word token of the
lowercased job description, and a canonical skill name containing a space
can never appear in either list (no token contains a space). -/
theorem analyze_keywords_characterization (m : List (String × String))
    (rs : List String) (jd : String) (x : String) :
    (¬ (x ∈ (analyze_keywords (some m) rs jd).1 ∧
        x ∈ (analyze_keywords (some m) rs jd).2)) ∧
    ((x ∈ (analyze_keywords (some m) rs jd).1 ∨
        x ∈ (analyze_keywords (some m) rs jd).2) ↔
      (x ∈ m.map Prod.snd ∧ pyLower x ∈ pyFindTokens (pyLower jd))) ∧
    (' ' ∈ x.data →
      x ∉ (analyze_keywords (some m) rs jd).1 ∧
      x ∉ (analyze_keywords (some m) rs jd).2) := by
  obtain ⟨h1, h2⟩ := analyze_keywords_mem m rs jd x
  refine ⟨?_, ?_, ?_⟩
  · rintro ⟨ha, hb⟩
    exact (h2.mp hb).2 (h1.mp ha).2
  · constructor
    · rintro (ha | hb)
      · exact (h1.mp ha).1
      · exact (h2.mp hb).1
    · intro hreq
      by_cases hrs : x ∈ rs
      · exact Or.inl (h1.mpr ⟨hreq, hrs⟩)
      · exact Or.inr (h2.mpr ⟨hreq, hrs⟩)
  · intro hsp
    have hno : pyLower x ∉ pyFindTokens (pyLower jd) := by
      intro htok
      have hchars := mem_pyFindTokens_tokChars (pyLower jd) (pyLower x) htok
      have hsp' : ' ' ∈ (pyLower x).data := by
        unfold pyLower
        exact List.mem_map.mpr ⟨' ', hsp, by decide⟩
      have := hchars ' ' hsp'
      simp [isTokChar] at this
    constructor
    · intro ha
      exact hno (h1.mp ha).1.2
    · intro hb
      exact hno (h2.mp hb).1.2

end NlpResumeAnalyzer
